import Mathlib

/-!
Verification of the Codz-Cogs repository spec against its source.

Shallow embedding of the three components the claims are about:
  * the channel and category inclusion-policy evaluators
    (stickercontrol/stickercontrol.py `_should_block_sticker`,
     gameinvitecontrol/gameinvitecontrol.py `_should_block_in_channel`),
  * the bounded rolling invite log
    (gameinvitecontrol/gameinvitecontrol.py `_append_log`, `view_log`),
  * the cross-guild mute propagation of mutesync/mutesync.py
    (`on_member_update`, `_handle_mute_unmute`, `enable`).

Machine integers are modelled as Nat (Discord ids are non-negative and Python
ints are unbounded, so no wrap-around is involved anywhere in this code).
-/

namespace CodzCogs

/-! ### Inclusion-policy evaluator

A channel as both evaluators see it.  `categoryId` models the
`channel.category_id` attribute; `none` means the channel has no parent
category.  The sticker evaluator reads the resolved parent-category object
`channel.category` instead of the raw id; the object is modelled as present
exactly when the id is present, with the same id (a fully populated
channel cache). -/

structure Channel where
  id : Nat
  categoryId : Option Nat
deriving DecidableEq, Repr

/-- Per-guild inclusion-policy configuration, as stored by both cogs:
`mode` is the raw stored string (the code compares it with "blacklist" and
treats every other value as whitelist), plus the channel and category id
lists. -/
structure PolicyConfig where
  mode : String
  channels : List Nat
  categories : List Nat
deriving DecidableEq, Repr

/-- Python truthiness of an optional integer: None and 0 are falsy.
Used by `_should_block_in_channel`, whose conditional expression
`channel.category_id in categories if channel.category_id else False`
tests the raw id for truthiness. -/
def pyTruthy : Option Nat → Bool
  | none => false
  | some n => n != 0

/-- StickerControl._should_block_sticker (stickercontrol.py lines 253-274). -/
def should_block_sticker (channel : Channel) (cfg : PolicyConfig) : Bool :=
  let channelInList := cfg.channels.contains channel.id
  let categoryInList :=
    match channel.categoryId with
    | some cid => cfg.categories.contains cid
    | none => false
  let inList := channelInList || categoryInList
  if cfg.mode = "blacklist" then inList else !inList

/-- GameInviteControl._should_block_in_channel (gameinvitecontrol.py lines
609-628).  Note the truthiness test on the raw `category_id`. -/
def should_block_in_channel (channel : Channel) (cfg : PolicyConfig) : Bool :=
  let channelInList := cfg.channels.contains channel.id
  let categoryInList :=
    if pyTruthy channel.categoryId then cfg.categories.contains (channel.categoryId.getD 0)
    else false
  let inList := channelInList || categoryInList
  if cfg.mode = "blacklist" then inList else !inList

/-- The in-list predicate exactly as the spec words it: the channel id is in
the policy channel list, or the channel has a parent category whose id is in
the policy category list. -/
def spec_in_list (channel : Channel) (cfg : PolicyConfig) : Prop :=
  channel.id ∈ cfg.channels ∨ ∃ cid, channel.categoryId = some cid ∧ cid ∈ cfg.categories

instance (channel : Channel) (cfg : PolicyConfig) : Decidable (spec_in_list channel cfg) :=
  decidable_of_iff
    (channel.id ∈ cfg.channels ∨ ∃ cid ∈ cfg.categories, channel.categoryId = some cid)
    (by unfold spec_in_list; aesop)

/-! ### BoundedEventLog (gameinvitecontrol.py) -/

/-- One entry of the rolling invite log, with the fields the listener stores
(gameinvitecontrol.py lines 456-468). -/
structure LogEntry where
  userId : Nat
  game : String
  party : String
  timestamp : String
  applicationId : String
deriving DecidableEq, Repr

/-- GameInviteControl._append_log (gameinvitecontrol.py lines 522-528):
insert at position 0, then truncate the tail whenever the length exceeds
the configured capacity. -/
def append_log (log : List LogEntry) (entry : LogEntry) (maxSize : Nat) : List LogEntry :=
  let log' := entry :: log
  if log'.length > maxSize then log'.take maxSize else log'

/-- The read side of GameInviteControl.view_log (gameinvitecontrol.py lines
304-332): the requested entry count is clamped to 25 and a prefix of the
stored list is returned. -/
def view_log_recent (log : List LogEntry) (entries : Nat) : List LogEntry :=
  log.take (min entries 25)

/-- Appending a list of entries in order, oldest first, each time with the
same capacity, starting from a given stored log. -/
def append_all (log : List LogEntry) (entries : List LogEntry) (maxSize : Nat) : List LogEntry :=
  entries.foldl (fun l e => append_log l e maxSize) log

/-! ### MuteSync (mutesync/mutesync.py)

The external collaborators are modelled as follows.

  * The bot directory `self.bot.get_guild` is a lookup in a list of `Guild`
    values (`World`); a guild carries the flags the handler reads:
    `unavailable` and the `me.guild_permissions.moderate_members` bit.
  * The durable per-guild store `self.config` is an association list keyed by
    guild id holding the cog settings (`cached_guild_name`, `mute_sources`,
    `mute_count`); `config.all_guilds()` iterates it in list order and
    looking up a guild with no stored record yields the registered defaults.
  * Clock: `discord.utils.utcnow()` is an abstract `now : Nat` measured in
    minutes, so that the expression
    `discord.utils.utcnow() + discord.timedelta(minutes=10)` becomes
    `now + 10`.  (In current discord.py the attribute `discord.timedelta`
    does not exist and `Member.edit` takes no `timeout` keyword, so the mute
    branch would in fact raise before reaching the REST call; the model uses
    the evident intended value of the expression.)
  * The REST call `user.edit(timeout=..., reason=...)` is the apply
    collaborator.  Its target is the guild the `Member` object is bound to.
    Each attempted call is recorded as an `ApplyCall`; its outcome is an
    abstract per-destination-iteration assignment
    `outcome : Nat → Option ApplyError` (`none` = success), with the error
    kinds being exactly the exception classes the code suppresses. -/

structure Guild where
  id : Nat
  name : String
  unavailable : Bool
  moderateMembers : Bool
deriving DecidableEq, Repr

/-- A member object: its id and the guild it is bound to (`member.guild`).
The `timed_out_until` attribute is passed separately by the event. -/
structure Member where
  id : Nat
  guild : Guild
deriving DecidableEq, Repr

/-- Per-guild stored settings of the MuteSync cog (its
`default_guild_settings`): cached guild name, the pull list `mute_sources`,
and the per-source counters `mute_count` as an association list. -/
structure GuildSettings where
  cachedGuildName : String
  muteSources : List Nat
  muteCount : List (Nat × Nat)
deriving DecidableEq, Repr

/-- The registered defaults of the cog. -/
def default_guild_settings : GuildSettings :=
  { cachedGuildName := "Unknown Server Name", muteSources := [], muteCount := [] }

/-- The durable store: guild id to stored settings, in iteration order. -/
abbrev StoreConfig := List (Nat × GuildSettings)

/-- The set of guilds the bot is in. -/
abbrev World := List Guild

/-- bot.get_guild: resolve a guild id to a live guild handle, if any. -/
def get_guild (world : World) (gid : Nat) : Option Guild :=
  world.find? (fun g => g.id == gid)

/-- Stored settings of a guild, with the registered defaults when the guild
has no record yet (the semantics of `self.config.guild(...)`). -/
def lookup_settings (cfg : StoreConfig) (gid : Nat) : GuildSettings :=
  (((cfg.find? (fun p => p.1 == gid))).map Prod.snd).getD default_guild_settings

/-- Value of the per-source counter dict for one source key (0 if absent). -/
def count_value : List (Nat × Nat) → Nat → Nat
  | [], _ => 0
  | (k, v) :: rest, s => if k = s then v else count_value rest s

/-- Per-source mute counter of a destination guild, as `settings` reads it. -/
def mute_count_of (cfg : StoreConfig) (dest src : Nat) : Nat :=
  count_value (lookup_settings cfg dest).muteCount src

/-- A keyed write to the store: replace the settings of the first record
with the given guild id, or append a fresh record (the update applied to
the registered defaults) when the guild has none yet — the semantics of a
`self.config.guild(...)` field write. -/
def store_update : StoreConfig → Nat → (GuildSettings → GuildSettings) → StoreConfig
  | [], gid, f => [(gid, f default_guild_settings)]
  | (k, gs) :: rest, gid, f =>
    if k = gid then (k, f gs) :: rest else (k, gs) :: store_update rest gid f

/-- Write `cached_guild_name` for a guild. -/
def set_cached_name (cfg : StoreConfig) (gid : Nat) (name : String) : StoreConfig :=
  store_update cfg gid (fun gs => { gs with cachedGuildName := name })

/-- Write `mute_sources` for a guild. -/
def set_mute_sources (cfg : StoreConfig) (gid : Nat) (sources : List Nat) : StoreConfig :=
  store_update cfg gid (fun gs => { gs with muteSources := sources })

/-- The counter update of `_handle_mute_unmute` (mutesync.py lines 314-319):
inside the `mute_count` dict, set the missing source key to 0 and then add
one to it. -/
def bump_value : List (Nat × Nat) → Nat → List (Nat × Nat)
  | [], s => [(s, 1)]
  | (k, v) :: rest, s => if k = s then (k, v + 1) :: rest else (k, v) :: bump_value rest s

/-- Apply the counter update to the store for a destination guild. -/
def bump_count (cfg : StoreConfig) (dest src : Nat) : StoreConfig :=
  store_update cfg dest (fun gs => { gs with muteCount := bump_value gs.muteCount src })

/-- The process-lifetime mute cache `self.mute_cache`: guild id and user id
to the last observed mute flag.  The code stores a boolean (muted or not),
not the timeout timestamp. -/
abbrev MuteCache := Nat → Nat → Option Bool

/-- Point update of the cache at the key (guild, user). -/
def update_cache (c : MuteCache) (gid uid : Nat) (mute : Bool) : MuteCache :=
  fun g u => if g = gid ∧ u = uid then some mute else c g u

/-- The exception classes suppressed around the apply call
(mutesync.py lines 305-309). -/
inductive ApplyError
  | notFound
  | forbidden
  | httpException
deriving DecidableEq, Repr

/-- One attempted apply call, i.e. one execution of `user.edit(...)`:
`forDest` is the destination guild id whose loop iteration issued the call,
`editGuild` is the guild of the member object actually edited
(`user.guild`), `timeout` is the `timed_out_until` value passed, and
`reason` the audit-log reason string. -/
structure ApplyCall where
  forDest : Nat
  editGuild : Nat
  userId : Nat
  timeout : Option Nat
  reason : String
deriving DecidableEq, Repr

/-- The skip chain of the destination loop of `_handle_mute_unmute`
(mutesync.py lines 291-304), in source order: skip self, skip guilds whose
pull list does not name the source, skip unresolvable or unavailable
guilds, skip guilds without the timeout permission, and skip when the cache
already records this mute flag for (destination, user). -/
def dest_qualifies (world : World) (cache : MuteCache) (srcId uid : Nat) (mute : Bool)
    (destId : Nat) (gs : GuildSettings) : Bool :=
  if destId = srcId then false
  else if srcId ∈ gs.muteSources then
    match get_guild world destId with
    | none => false
    | some destGuild =>
      if destGuild.unavailable then false
      else if !destGuild.moderateMembers then false
      else if cache destGuild.id uid = some mute then false
      else true
  else false

/-- The apply call a qualifying destination iteration issues
(mutesync.py lines 310-313 and 321): the member object of the source event
is edited, with a fresh ten-minute timeout on mute and a cleared timeout on
unmute. -/
def apply_call_for (src : Guild) (user : Member) (mute : Bool) (now : Nat)
    (destId : Nat) : ApplyCall :=
  { forDest := destId
    editGuild := user.guild.id
    userId := user.id
    timeout := if mute then some (now + 10) else none
    reason := "MuteSync from server \"" ++ src.name ++ "\"" }

/-- The destination loop of `_handle_mute_unmute` (mutesync.py lines
290-321).  It walks the `all_guilds` snapshot; for each qualifying
destination it attempts the apply call (always recorded), suppresses any
`ApplyError`, and on a successful call in the mute branch increments the
per-source counter of the destination in the evolving store.  The cache is
never written inside the loop. -/
def propagate_loop (world : World) (outcome : Nat → Option ApplyError) (src : Guild)
    (user : Member) (mute : Bool) (now : Nat) (cache : MuteCache) :
    List (Nat × GuildSettings) → StoreConfig → List ApplyCall → StoreConfig × List ApplyCall
  | [], cfg, acc => (cfg, acc)
  | (destId, gs) :: rest, cfg, acc =>
    if dest_qualifies world cache src.id user.id mute destId gs then
      let call := apply_call_for src user mute now destId
      let cfg' := if mute ∧ outcome destId = none then bump_count cfg destId src.id else cfg
      propagate_loop world outcome src user mute now cache rest cfg' (acc ++ [call])
    else
      propagate_loop world outcome src user mute now cache rest cfg acc

/-- The in-memory state the handler touches: the mute cache and the durable
store. -/
structure HandlerState where
  cache : MuteCache
  config : StoreConfig

/-- MuteSync._handle_mute_unmute (mutesync.py lines 275-321): record the
mute flag for (source guild, user) in the cache, refresh the cached name of
the source guild, then run the destination loop over the resulting
`all_guilds` snapshot. -/
def handle_mute_unmute (world : World) (outcome : Nat → Option ApplyError) (now : Nat)
    (st : HandlerState) (src : Guild) (user : Member) (mute : Bool) :
    HandlerState × List ApplyCall :=
  let cache' := update_cache st.cache src.id user.id mute
  let cfg1 := set_cached_name st.config src.id src.name
  let r := propagate_loop world outcome src user mute now cache' cfg1 cfg1 []
  ({ cache := cache', config := r.1 }, r.2)

/-- MuteSync.on_member_update (mutesync.py lines 265-273): ignore events
that do not change `timed_out_until`; otherwise derive the mute flag
(timestamp present or not) and hand off to `_handle_mute_unmute` with the
source guild of the member. -/
def on_member_update (world : World) (outcome : Nat → Option ApplyError) (now : Nat)
    (st : HandlerState) (beforeTimedOut afterTimedOut : Option Nat) (member : Member) :
    HandlerState × List ApplyCall :=
  if beforeTimedOut = afterTimedOut then (st, [])
  else handle_mute_unmute world outcome now st member.guild member afterTimedOut.isSome

/-- The argument of the `enable` command after the converter ran: either a
resolved guild object or the raw string when no guild matched. -/
inductive ServerArg
  | guild (g : Guild)
  | unresolved (s : String)
deriving DecidableEq, Repr

/-- Observable outcome of the `enable` command, one constructor per message
the command can send. -/
inductive EnableResult
  | errNoPermission
  | errNotFound
  | errSelf
  | cancelled
  | alreadyPulling
  | added
deriving DecidableEq, Repr

/-- MuteSync.enable (mutesync.py lines 159-225), the `add_edge` operation of
the spec.  `ctxGuild` is the destination guild the command runs in,
`server` the source argument, `confirm` the answer to the yes/no prompt.
Checks in source order: the timeout permission of the bot in the
destination, a resolvable guild argument, the self-edge rejection, the
idempotent branch for an already-listed source (which still refreshes both
cached names and returns success), the confirmation prompt, and finally the
append to `mute_sources`.  The comparison `server == ctx.guild` is id
equality, as for discord guild objects. -/
def enable (cfg : StoreConfig) (ctxGuild : Guild) (server : ServerArg) (confirm : Bool) :
    StoreConfig × EnableResult :=
  if !ctxGuild.moderateMembers then (cfg, .errNoPermission)
  else
    match server with
    | .unresolved _ => (cfg, .errNotFound)
    | .guild server =>
      if server.id = ctxGuild.id then (cfg, .errSelf)
      else
        let muteSources := (lookup_settings cfg ctxGuild.id).muteSources
        if server.id ∈ muteSources then
          let cfg := set_cached_name cfg ctxGuild.id ctxGuild.name
          let cfg := set_cached_name cfg server.id server.name
          (cfg, .alreadyPulling)
        else if !confirm then (cfg, .cancelled)
        else
          let cfg := set_cached_name cfg ctxGuild.id ctxGuild.name
          let cfg := set_cached_name cfg server.id server.name
          (set_mute_sources cfg ctxGuild.id (muteSources ++ [server.id]), .added)

/-! ## Helper lemmas -/

theorem append_log_eq_take (log : List LogEntry) (e : LogEntry) (c : Nat) :
    append_log log e c = (e :: log).take c := by
  simp only [append_log]
  split
  · rfl
  · next h => exact (List.take_of_length_le (by omega)).symm

theorem take_append_take {c m : Nat} (h : c ≤ m) (X Y : List LogEntry) :
    (X ++ Y.take m).take c = (X ++ Y).take c := by
  rw [List.take_append_eq_append_take, List.take_append_eq_append_take, List.take_take,
    Nat.min_eq_left (Nat.le_trans (Nat.sub_le _ _) h)]

theorem append_all_eq_take (es : List LogEntry) (c : Nat) :
    ∀ log : List LogEntry, log.length ≤ c → append_all log es c = (es.reverse ++ log).take c := by
  induction es with
  | nil =>
    intro log h
    simpa [append_all] using (List.take_of_length_le h).symm
  | cons e es ih =>
    intro log h
    have hstep : append_all log (e :: es) c = append_all (append_log log e c) es c := rfl
    have hlen : (append_log log e c).length ≤ c := by
      rw [append_log_eq_take]
      simp [Nat.min_le_left]
    rw [hstep, ih _ hlen, append_log_eq_take, take_append_take (Nat.le_refl c)]
    simp [List.append_assoc]

theorem lookup_store_update_self (cfg : StoreConfig) (gid : Nat)
    (f : GuildSettings → GuildSettings) :
    lookup_settings (store_update cfg gid f) gid = f (lookup_settings cfg gid) := by
  induction cfg with
  | nil => simp [store_update, lookup_settings]
  | cons p rest ih =>
    obtain ⟨k, gs⟩ := p
    by_cases hk : k = gid
    · subst hk
      simp [store_update, lookup_settings]
    · have hb : (k == gid) = false := by simpa using hk
      simp only [store_update, if_neg hk, lookup_settings, List.find?_cons, hb] at ih ⊢
      exact ih

theorem lookup_store_update_other (cfg : StoreConfig) (gid x : Nat)
    (f : GuildSettings → GuildSettings) (h : x ≠ gid) :
    lookup_settings (store_update cfg gid f) x = lookup_settings cfg x := by
  have hb : (gid == x) = false := by simpa using (Ne.symm h)
  induction cfg with
  | nil => simp [store_update, lookup_settings, hb]
  | cons p rest ih =>
    obtain ⟨k, gs⟩ := p
    by_cases hk : k = gid
    · subst hk
      simp [store_update, lookup_settings, List.find?_cons, hb]
    · by_cases hx : k = x
      · subst hx
        simp [store_update, if_neg hk, lookup_settings, List.find?_cons]
      · have hbx : (k == x) = false := by simpa using hx
        simp only [store_update, if_neg hk, lookup_settings, List.find?_cons, hbx] at ih ⊢
        exact ih

theorem sources_set_cached_name (cfg : StoreConfig) (g : Nat) (n : String) (x : Nat) :
    (lookup_settings (set_cached_name cfg g n) x).muteSources =
      (lookup_settings cfg x).muteSources := by
  by_cases hx : x = g
  · subst hx
    rw [set_cached_name, lookup_store_update_self]
  · rw [set_cached_name, lookup_store_update_other cfg g x _ hx]

theorem name_set_cached_name_self (cfg : StoreConfig) (g : Nat) (n : String) :
    (lookup_settings (set_cached_name cfg g n) g).cachedGuildName = n := by
  rw [set_cached_name, lookup_store_update_self]

theorem sources_set_mute_sources_self (cfg : StoreConfig) (g : Nat) (l : List Nat) :
    (lookup_settings (set_mute_sources cfg g l) g).muteSources = l := by
  rw [set_mute_sources, lookup_store_update_self]

theorem count_bump_value_self (m : List (Nat × Nat)) (s : Nat) :
    count_value (bump_value m s) s = count_value m s + 1 := by
  induction m with
  | nil => simp [bump_value, count_value]
  | cons p rest ih =>
    obtain ⟨k, v⟩ := p
    by_cases hk : k = s
    · subst hk
      simp [bump_value, count_value]
    · simp [bump_value, count_value, hk, ih]

theorem mute_count_bump_self (cfg : StoreConfig) (d s : Nat) :
    mute_count_of (bump_count cfg d s) d s = mute_count_of cfg d s + 1 := by
  rw [mute_count_of, mute_count_of, bump_count, lookup_store_update_self]
  exact count_bump_value_self _ s

theorem mute_count_bump_other (cfg : StoreConfig) (d s d' s' : Nat) (h : d' ≠ d) :
    mute_count_of (bump_count cfg d s) d' s' = mute_count_of cfg d' s' := by
  rw [mute_count_of, mute_count_of, bump_count, lookup_store_update_other _ _ _ _ h]

theorem mute_count_set_cached_name (cfg : StoreConfig) (g : Nat) (n : String) (d s : Nat) :
    mute_count_of (set_cached_name cfg g n) d s = mute_count_of cfg d s := by
  by_cases hd : d = g
  · subst hd
    rw [mute_count_of, mute_count_of, set_cached_name, lookup_store_update_self]
  · rw [mute_count_of, mute_count_of, set_cached_name, lookup_store_update_other _ _ _ _ hd]

theorem propagate_loop_applies (w : World) (o : Nat → Option ApplyError) (src : Guild)
    (user : Member) (mute : Bool) (now : Nat) (cache : MuteCache) :
    ∀ (L : List (Nat × GuildSettings)) (cfg : StoreConfig) (acc : List ApplyCall),
    (propagate_loop w o src user mute now cache L cfg acc).2 =
      acc ++ L.filterMap (fun p =>
        if dest_qualifies w cache src.id user.id mute p.1 p.2 then
          some (apply_call_for src user mute now p.1) else none) := by
  intro L
  induction L with
  | nil => intro cfg acc; simp [propagate_loop]
  | cons p rest ih =>
    intro cfg acc
    obtain ⟨d, gs⟩ := p
    by_cases hq : dest_qualifies w cache src.id user.id mute d gs
    · simp [propagate_loop, hq, ih]
    · simp [propagate_loop, hq, ih]

theorem propagate_loop_config_unmute (w : World) (o : Nat → Option ApplyError) (src : Guild)
    (user : Member) (now : Nat) (cache : MuteCache) :
    ∀ (L : List (Nat × GuildSettings)) (cfg : StoreConfig) (acc : List ApplyCall),
    (propagate_loop w o src user false now cache L cfg acc).1 = cfg := by
  intro L
  induction L with
  | nil => intro cfg acc; simp [propagate_loop]
  | cons p rest ih =>
    intro cfg acc
    obtain ⟨d, gs⟩ := p
    by_cases hq : dest_qualifies w cache src.id user.id false d gs
    · simp [propagate_loop, hq, ih]
    · simp [propagate_loop, hq, ih]

theorem propagate_loop_count_notmem (w : World) (o : Nat → Option ApplyError) (src : Guild)
    (user : Member) (mute : Bool) (now : Nat) (cache : MuteCache) :
    ∀ (L : List (Nat × GuildSettings)) (cfg : StoreConfig) (acc : List ApplyCall) (d s : Nat),
    d ∉ L.map Prod.fst →
    mute_count_of (propagate_loop w o src user mute now cache L cfg acc).1 d s =
      mute_count_of cfg d s := by
  intro L
  induction L with
  | nil => intro cfg acc d s _; simp [propagate_loop]
  | cons p rest ih =>
    intro cfg acc d s hd
    obtain ⟨k, gs⟩ := p
    have hdk : d ≠ k := by
      intro h
      exact hd (by simp [h])
    have hdrest : d ∉ rest.map Prod.fst := by
      intro h
      exact hd (by simp [h])
    by_cases hq : dest_qualifies w cache src.id user.id mute k gs
    · simp only [propagate_loop, if_pos hq]
      rw [ih _ _ d s hdrest]
      split
      · exact mute_count_bump_other cfg k src.id d s hdk
      · rfl
    · simp only [propagate_loop, if_neg hq]
      exact ih _ _ d s hdrest

theorem propagate_loop_count_mem (w : World) (o : Nat → Option ApplyError) (src : Guild)
    (user : Member) (mute : Bool) (now : Nat) (cache : MuteCache) :
    ∀ (L : List (Nat × GuildSettings)) (cfg : StoreConfig) (acc : List ApplyCall)
      (d : Nat) (gs : GuildSettings),
    (L.map Prod.fst).Nodup → (d, gs) ∈ L →
    mute_count_of (propagate_loop w o src user mute now cache L cfg acc).1 d src.id =
      mute_count_of cfg d src.id +
        (if dest_qualifies w cache src.id user.id mute d gs ∧ mute ∧ o d = none
         then 1 else 0) := by
  intro L
  induction L with
  | nil => intro cfg acc d gs _ hmem; cases hmem
  | cons p rest ih =>
    intro cfg acc d gs hnd hmem
    obtain ⟨k, gs'⟩ := p
    have hk : k ∉ rest.map Prod.fst := by
      have := hnd
      simp only [List.map_cons, List.nodup_cons] at this
      exact this.1
    have hnd' : (rest.map Prod.fst).Nodup := by
      have := hnd
      simp only [List.map_cons, List.nodup_cons] at this
      exact this.2
    rcases List.mem_cons.mp hmem with heq | hrest
    · have hdk : d = k := by
        have := congrArg Prod.fst heq
        simpa using this
      have hgs : gs = gs' := by
        have := congrArg Prod.snd heq
        simpa using this
      subst hdk
      subst hgs
      by_cases hq : dest_qualifies w cache src.id user.id mute d gs
      · simp only [propagate_loop, if_pos hq]
        rw [propagate_loop_count_notmem w o src user mute now cache rest _ _ d src.id hk]
        by_cases hmo : mute ∧ o d = none
        · rw [if_pos hmo, if_pos ⟨hq, hmo⟩]
          exact mute_count_bump_self cfg d src.id
        · rw [if_neg hmo, if_neg (fun h => hmo ⟨h.2.1, h.2.2⟩)]
          simp
      · simp only [propagate_loop, if_neg hq]
        rw [propagate_loop_count_notmem w o src user mute now cache rest _ _ d src.id hk,
          if_neg (fun h => hq h.1)]
        simp
    · have hdk : d ≠ k := by
        intro h
        subst h
        exact hk (List.mem_map.mpr ⟨(d, gs), hrest, rfl⟩)
      by_cases hq : dest_qualifies w cache src.id user.id mute k gs'
      · simp only [propagate_loop, if_pos hq]
        rw [ih _ _ d gs hnd' hrest]
        congr 1
        split
        · exact mute_count_bump_other cfg k src.id d src.id hdk
        · rfl
      · simp only [propagate_loop, if_neg hq]
        exact ih _ _ d gs hnd' hrest

theorem handle_mute_unmute_eq (w : World) (o : Nat → Option ApplyError) (now : Nat)
    (st : HandlerState) (src : Guild) (user : Member) (mute : Bool) :
    handle_mute_unmute w o now st src user mute =
      ({ cache := update_cache st.cache src.id user.id mute,
         config := (propagate_loop w o src user mute now
           (update_cache st.cache src.id user.id mute)
           (set_cached_name st.config src.id src.name)
           (set_cached_name st.config src.id src.name) []).1 },
       (propagate_loop w o src user mute now
           (update_cache st.cache src.id user.id mute)
           (set_cached_name st.config src.id src.name)
           (set_cached_name st.config src.id src.name) []).2) := rfl

theorem handle_mute_unmute_applies (w : World) (o : Nat → Option ApplyError) (now : Nat)
    (st : HandlerState) (src : Guild) (user : Member) (mute : Bool) :
    (handle_mute_unmute w o now st src user mute).2 =
      (set_cached_name st.config src.id src.name).filterMap (fun p =>
        if dest_qualifies w (update_cache st.cache src.id user.id mute)
            src.id user.id mute p.1 p.2 then
          some (apply_call_for src user mute now p.1) else none) := by
  rw [handle_mute_unmute_eq]
  rw [propagate_loop_applies]
  simp

/-! ## Claims C5, C6 and C10 -/

/-- C5 (confirmed).  BoundedEventLog bound and order: after every append
with capacity c the stored sequence has length at most c; the stored
sequence after any series of appends from empty is the reversed append
order truncated to the capacity, so rank is insertion order, independent of
every field of the entries, including the timestamp; appending 50 + k
entries at capacity 50 leaves exactly 50 entries; and the read side returns
a prefix of the stored sequence (newest first, the requested count clamped
to 25 by `view_log`). -/
theorem c5_bounded_log_bound_and_order :
    (∀ (log : List LogEntry) (e : LogEntry) (c : Nat), (append_log log e c).length ≤ c) ∧
    (∀ (es : List LogEntry) (c : Nat), append_all [] es c = es.reverse.take c) ∧
    (∀ (es : List LogEntry) (k : Nat), es.length = 50 + k → (append_all [] es 50).length = 50) ∧
    (∀ (es : List LogEntry) (c n : Nat),
      view_log_recent (append_all [] es c) n = es.reverse.take (min (min n 25) c)) := by
  have hfold : ∀ (es : List LogEntry) (c : Nat), append_all [] es c = es.reverse.take c := by
    intro es c
    simpa using append_all_eq_take es c [] (by simp)
  refine ⟨?_, hfold, ?_, ?_⟩
  · intro log e c
    rw [append_log_eq_take]
    simp [Nat.min_le_left]
  · intro es k h
    rw [hfold]
    simp [h]
  · intro es c n
    rw [hfold, view_log_recent, List.take_take]

/-- C5 witness: 53 appends at capacity 50 leave exactly 50 stored entries. -/
theorem c5_bounded_log_witness :
    (List.replicate 53 (LogEntry.mk 0 "g" "p" "t" "a")).length = 50 + 3 ∧
    (append_all [] (List.replicate 53 (LogEntry.mk 0 "g" "p" "t" "a")) 50).length = 50 :=
  ⟨by decide, c5_bounded_log_bound_and_order.2.2.1
    (List.replicate 53 (LogEntry.mk 0 "g" "p" "t" "a")) 3 (by decide)⟩

/-- C6 counterexample: the claim states block-iff-in-list for the evaluator
with in_list covering the parent category id, over all (channel, policy)
pairs.  For a channel whose parent category id is 0 and a blacklist policy
listing category 0, `_should_block_in_channel` does not block even though
the spec in-list predicate holds, because the Python truthiness test
`if channel.category_id` treats the id 0 as absent. -/
theorem c6_should_block_cex :
    should_block_in_channel ⟨5, some 0⟩ ⟨"blacklist", [], [0]⟩ = false ∧
    spec_in_list ⟨5, some 0⟩ ⟨"blacklist", [], [0]⟩ := by
  exact ⟨by decide, by decide⟩

/-- C6 as amended: both evaluators are pure total functions;
`_should_block_sticker` satisfies the spec equation (blacklist blocks iff
in_list, otherwise blocks iff not in_list, with an absent parent category
contributing false) for all (channel, policy) pairs, and
`_should_block_in_channel` satisfies it for every channel whose parent
category id is not 0 — a parent category id of 0 is treated there as no
category. -/
theorem c6_should_block_amended (ch : Channel) (cfg : PolicyConfig) :
    (should_block_sticker ch cfg = true ↔
      (if cfg.mode = "blacklist" then spec_in_list ch cfg else ¬spec_in_list ch cfg)) ∧
    (ch.categoryId ≠ some 0 →
      (should_block_in_channel ch cfg = true ↔
        (if cfg.mode = "blacklist" then spec_in_list ch cfg else ¬spec_in_list ch cfg))) := by
  obtain ⟨cid, cat⟩ := ch
  constructor
  · cases cat <;> by_cases hm : cfg.mode = "blacklist" <;>
      simp [should_block_sticker, spec_in_list, hm]
  · intro hne
    cases cat with
    | none =>
      by_cases hm : cfg.mode = "blacklist" <;>
        simp [should_block_in_channel, spec_in_list, pyTruthy, hm]
    | some n =>
      have hn : n ≠ 0 := by
        intro h
        exact hne (by simp [h])
      by_cases hm : cfg.mode = "blacklist" <;>
        simp [should_block_in_channel, spec_in_list, pyTruthy, hm, hn]

/-- C6 witness: the game-invite evaluator at a channel with a nonzero
parent category id, under whitelist mode. -/
theorem c6_should_block_witness :
    (some 4 : Option Nat) ≠ some 0 ∧
    (should_block_in_channel ⟨10, some 4⟩ ⟨"whitelist", [10], []⟩ = true ↔
      (if ("whitelist" : String) = "blacklist" then spec_in_list ⟨10, some 4⟩ ⟨"whitelist", [10], []⟩
       else ¬spec_in_list ⟨10, some 4⟩ ⟨"whitelist", [10], []⟩)) :=
  ⟨by decide, (c6_should_block_amended ⟨10, some 4⟩ ⟨"whitelist", [10], []⟩).2 (by decide)⟩

/-- C10 counterexample: the two evaluators disagree at a channel whose
parent category id is 0 under a whitelist policy listing category 0:
`_should_block_sticker` consults the parent category object and finds it
listed (so it does not block), while `_should_block_in_channel` treats the
id 0 as no category (and blocks). -/
theorem c10_evaluators_cex :
    should_block_sticker ⟨7, some 0⟩ ⟨"whitelist", [], [0]⟩ = false ∧
    should_block_in_channel ⟨7, some 0⟩ ⟨"whitelist", [], [0]⟩ = true := by
  exact ⟨by decide, by decide⟩

/-- C10 as amended: the two independently implemented evaluators return
equal results for every policy and every channel whose parent category id
is not 0 (in particular for every real Discord channel, whose snowflake ids
are nonzero). -/
theorem c10_evaluators_agree (ch : Channel) (cfg : PolicyConfig)
    (h : ch.categoryId ≠ some 0) :
    should_block_sticker ch cfg = should_block_in_channel ch cfg := by
  obtain ⟨cid, cat⟩ := ch
  cases cat with
  | none => simp [should_block_sticker, should_block_in_channel, pyTruthy]
  | some n =>
    have hn : n ≠ 0 := by
      intro hz
      exact h (by simp [hz])
    simp [should_block_sticker, should_block_in_channel, pyTruthy, hn]

/-- C10 witness: the two evaluators agree at a concrete channel with a
nonzero parent category id. -/
theorem c10_evaluators_agree_witness :
    (some 9 : Option Nat) ≠ some 0 ∧
    should_block_sticker ⟨3, some 9⟩ ⟨"blacklist", [], [9]⟩ =
      should_block_in_channel ⟨3, some 9⟩ ⟨"blacklist", [], [9]⟩ :=
  ⟨by decide, c10_evaluators_agree ⟨3, some 9⟩ ⟨"blacklist", [], [9]⟩ (by decide)⟩

/-! ## Claim C7 -/

/-- C7 (confirmed).  Self edges are rejected: when the bot has the timeout
permission, `enable` on the own guild reports the self-edge error and the
whole store is unchanged.  For distinct guilds, adding the same source
twice leaves exactly one copy of the source in the pull list of the
destination: the first call reports success and appends, the second hits
the idempotent branch, still reports success, leaves the pull list
unchanged and still refreshes the cached display name of the source
guild. -/
theorem c7_add_edge_self_and_idempotent :
    (∀ (cfg : StoreConfig) (g : Guild) (confirm : Bool),
      g.moderateMembers = true →
      enable cfg g (.guild g) confirm = (cfg, .errSelf)) ∧
    (∀ (cfg : StoreConfig) (a b : Guild) (confirm2 : Bool),
      a.moderateMembers = true →
      b.id ≠ a.id →
      b.id ∉ (lookup_settings cfg a.id).muteSources →
      (enable cfg a (.guild b) true).2 = .added ∧
      (enable (enable cfg a (.guild b) true).1 a (.guild b) confirm2).2 = .alreadyPulling ∧
      ((lookup_settings (enable (enable cfg a (.guild b) true).1 a (.guild b) confirm2).1
          a.id).muteSources).count b.id = 1 ∧
      (lookup_settings (enable (enable cfg a (.guild b) true).1 a (.guild b) confirm2).1
          a.id).muteSources =
        (lookup_settings (enable cfg a (.guild b) true).1 a.id).muteSources ∧
      (lookup_settings (enable (enable cfg a (.guild b) true).1 a (.guild b) confirm2).1
          b.id).cachedGuildName = b.name) := by
  constructor
  · intro cfg g confirm hperm
    simp [enable, hperm]
  · intro cfg a b confirm2 hperm hne hnotmem
    have h1 : enable cfg a (.guild b) true =
        (set_mute_sources (set_cached_name (set_cached_name cfg a.id a.name) b.id b.name)
          a.id ((lookup_settings cfg a.id).muteSources ++ [b.id]), .added) := by
      simp [enable, hperm, hne, hnotmem]
    have hsrc1 : (lookup_settings (enable cfg a (.guild b) true).1 a.id).muteSources =
        (lookup_settings cfg a.id).muteSources ++ [b.id] := by
      rw [h1]
      exact sources_set_mute_sources_self _ _ _
    have hmem2 : b.id ∈ (lookup_settings (enable cfg a (.guild b) true).1 a.id).muteSources := by
      rw [hsrc1]
      simp
    have h2 : enable (enable cfg a (.guild b) true).1 a (.guild b) confirm2 =
        (set_cached_name (set_cached_name (enable cfg a (.guild b) true).1 a.id a.name)
          b.id b.name, .alreadyPulling) := by
      rw [h1]
      have hm : b.id ∈ (lookup_settings
          (set_mute_sources (set_cached_name (set_cached_name cfg a.id a.name) b.id b.name)
            a.id ((lookup_settings cfg a.id).muteSources ++ [b.id])) a.id).muteSources := by
        rw [sources_set_mute_sources_self]
        simp
      simp [enable, hperm, hne, hm]
    refine ⟨by rw [h1], by rw [h2], ?_, ?_, ?_⟩
    · rw [h2]
      simp only [sources_set_cached_name, hsrc1]
      simp [List.count_append, List.count_eq_zero.mpr hnotmem]
    · rw [h2]
      simp only [sources_set_cached_name]
    · rw [h2]
      exact name_set_cached_name_self _ _ _

/-- C7 witness: a concrete store and two concrete guilds. -/
theorem c7_add_edge_witness :
    (Guild.mk 1 "Alpha" false true).moderateMembers = true ∧
    (Guild.mk 2 "Beta" false true).id ≠ (Guild.mk 1 "Alpha" false true).id ∧
    (Guild.mk 2 "Beta" false true).id ∉
      (lookup_settings [] (Guild.mk 1 "Alpha" false true).id).muteSources ∧
    ((lookup_settings
        (enable (enable [] (Guild.mk 1 "Alpha" false true)
            (.guild (Guild.mk 2 "Beta" false true)) true).1
          (Guild.mk 1 "Alpha" false true) (.guild (Guild.mk 2 "Beta" false true)) false).1
        (Guild.mk 1 "Alpha" false true).id).muteSources).count
      (Guild.mk 2 "Beta" false true).id = 1 :=
  ⟨by decide, by decide, by decide,
    ((c7_add_edge_self_and_idempotent.2 [] (Guild.mk 1 "Alpha" false true)
      (Guild.mk 2 "Beta" false true) false (by decide) (by decide) (by decide)).2.2).1⟩


theorem on_member_update_of_ne (w : World) (o : Nat → Option ApplyError) (now : Nat)
    (st : HandlerState) (b a : Option Nat) (m : Member) (h : b ≠ a) :
    on_member_update w o now st b a m = handle_mute_unmute w o now st m.guild m a.isSome := by
  simp [on_member_update, h]

/-! ## Claims C1, C2, C3, C4, C8 and C9 -/

/-- C2 (confirmed, counting apply-collaborator invocations).  Domains A=1
and B=2, B pulls from A (the pull list of A is arbitrary, so the mutual
configuration is covered), both reachable and capable, fresh cache.  A
state change on A for any user leads to exactly one collaborator invocation
(for the subscription of B), and the echoed event delivered afterwards on B
for the same user with any restricted timestamp leads to none: exactly one
invocation in total across both calls, whatever the outcomes. -/
theorem c2_loop_suppression_once_total
    (nA nB : String) (sA sB : GuildSettings) (u t t2 now1 now2 : Nat)
    (o1 o2 : Nat → Option ApplyError) (b0 : Option Nat)
    (hpull : 1 ∈ sB.muteSources) (hb0 : b0 ≠ some t) :
    ((on_member_update [⟨1, nA, false, true⟩, ⟨2, nB, false, true⟩] o1 now1
        ⟨fun _ _ => none, [(1, sA), (2, sB)]⟩ b0 (some t) ⟨u, ⟨1, nA, false, true⟩⟩).2.length
      = 1) ∧
    ((on_member_update [⟨1, nA, false, true⟩, ⟨2, nB, false, true⟩] o2 now2
        (on_member_update [⟨1, nA, false, true⟩, ⟨2, nB, false, true⟩] o1 now1
          ⟨fun _ _ => none, [(1, sA), (2, sB)]⟩ b0 (some t) ⟨u, ⟨1, nA, false, true⟩⟩).1
        none (some t2) ⟨u, ⟨2, nB, false, true⟩⟩).2 = []) := by
  rw [on_member_update_of_ne _ _ _ _ _ _ _ hb0]
  rw [on_member_update_of_ne _ _ _ _ _ _ _ (show (none : Option Nat) ≠ some t2 by simp)]
  dsimp only
  simp only [Option.isSome_some]
  have hsnap : set_cached_name [(1, sA), (2, sB)] 1 nA =
      [(1, { sA with cachedGuildName := nA }), (2, sB)] := by
    simp [set_cached_name, store_update]
  have hcache : (handle_mute_unmute [⟨1, nA, false, true⟩, ⟨2, nB, false, true⟩] o1 now1
      ⟨fun _ _ => none, [(1, sA), (2, sB)]⟩ ⟨1, nA, false, true⟩
      ⟨u, ⟨1, nA, false, true⟩⟩ true).1.cache = update_cache (fun _ _ => none) 1 u true := rfl
  have hqual1 : ∀ (gs : GuildSettings) (mu : Bool) (c : MuteCache),
      dest_qualifies [⟨1, nA, false, true⟩, ⟨2, nB, false, true⟩] c 1 u mu 1 gs = false := by
    intro gs mu c
    simp [dest_qualifies]
  have hqual2 : dest_qualifies [⟨1, nA, false, true⟩, ⟨2, nB, false, true⟩]
      (update_cache (fun _ _ => none) 1 u true) 1 u true 2 sB = true := by
    simp [dest_qualifies, get_guild, update_cache, hpull]
  have hcfg : ∃ sB2 : GuildSettings,
      (handle_mute_unmute [⟨1, nA, false, true⟩, ⟨2, nB, false, true⟩] o1 now1
        ⟨fun _ _ => none, [(1, sA), (2, sB)]⟩ ⟨1, nA, false, true⟩
        ⟨u, ⟨1, nA, false, true⟩⟩ true).1.config =
        [(1, { sA with cachedGuildName := nA }), (2, sB2)] := by
    rw [handle_mute_unmute_eq]
    dsimp only
    rw [hsnap]
    by_cases ho : o1 2 = none
    · refine ⟨{ sB with muteCount := bump_value sB.muteCount 1 }, ?_⟩
      simp [propagate_loop, hqual1, hqual2, ho, bump_count, store_update]
    · refine ⟨sB, ?_⟩
      simp [propagate_loop, hqual1, hqual2, ho]
  obtain ⟨sB2, hcfg⟩ := hcfg
  constructor
  · rw [handle_mute_unmute_applies]
    dsimp only
    rw [hsnap]
    simp [hqual1, hqual2]
  · rw [handle_mute_unmute_applies]
    dsimp only
    rw [hcache, hcfg]
    have hsnap2 : set_cached_name
        [(1, { sA with cachedGuildName := nA }), (2, sB2)] 2 nB =
        [(1, { sA with cachedGuildName := nA }),
         (2, { sB2 with cachedGuildName := nB })] := by
      simp [set_cached_name, store_update]
    rw [hsnap2]
    by_cases hm : 2 ∈ sA.muteSources
    · simp [dest_qualifies, get_guild, update_cache, hm]
    · simp [dest_qualifies, get_guild, update_cache, hm]


/-- C1 (code bug): evaluation at the failing input.  Guilds A=1, B=2, C=3,
B and C pull from A, all reachable and capable; member 42 becomes timed out
in A until t=1000 at clock now=100 (minutes).  The claim (and the cog
docstring) require B and C each to receive one apply carrying
RESTRICTED(1000) and A to receive none.  The code instead issues, once per
subscribed destination, an edit of the member object of the source event —
bound to guild A — with a fresh ten-minute timeout: both recorded calls
have editGuild = 1 and timeout = some 110, no call edits guild 2 or guild
3, and no call carries the timestamp 1000. -/
theorem c1_apply_targets_source_eval :
    let gA : Guild := ⟨1, "Alpha", false, true⟩
    let st0 : HandlerState := ⟨fun _ _ => none,
      [(1, ⟨"Alpha", [], []⟩), (2, ⟨"Beta", [1], []⟩), (3, ⟨"Gamma", [1], []⟩)]⟩
    let r := on_member_update [gA, ⟨2, "Beta", false, true⟩, ⟨3, "Gamma", false, true⟩]
      (fun _ => none) 100 st0 none (some 1000) ⟨42, gA⟩
    r.2.map (fun c => (c.forDest, c.editGuild, c.userId, c.timeout)) =
      [(2, 1, 42, some 110), (3, 1, 42, some 110)] ∧
    r.2.filter (fun c => c.editGuild == 2) = [] ∧
    r.2.filter (fun c => c.editGuild == 3) = [] ∧
    (r.2.filter (fun c => c.editGuild == 1)).length = 2 ∧
    r.2.filter (fun c => c.timeout == some 1000) = [] := by
  decide

/-- C2 witness: a fully concrete mutual two-guild configuration. -/
theorem c2_loop_suppression_witness :
    1 ∈ (GuildSettings.mk "B" [1] []).muteSources ∧
    (none : Option Nat) ≠ some 40 ∧
    (((on_member_update [⟨1, "A", false, true⟩, ⟨2, "B", false, true⟩] (fun _ => none) 10
        ⟨fun _ _ => none, [(1, ⟨"A", [2], []⟩), (2, ⟨"B", [1], []⟩)]⟩ none (some 40)
        ⟨8, ⟨1, "A", false, true⟩⟩).2.length = 1) ∧
      ((on_member_update [⟨1, "A", false, true⟩, ⟨2, "B", false, true⟩] (fun _ => none) 11
        (on_member_update [⟨1, "A", false, true⟩, ⟨2, "B", false, true⟩] (fun _ => none) 10
          ⟨fun _ _ => none, [(1, ⟨"A", [2], []⟩), (2, ⟨"B", [1], []⟩)]⟩ none (some 40)
          ⟨8, ⟨1, "A", false, true⟩⟩).1
        none (some 41) ⟨8, ⟨2, "B", false, true⟩⟩).2 = [])) :=
  ⟨by decide, by decide,
    c2_loop_suppression_once_total "A" "B" ⟨"A", [2], []⟩ ⟨"B", [1], []⟩ 8 40 41 10 11
      (fun _ => none) (fun _ => none) none (by decide) (by decide)⟩

/-- C3 (confirmed).  First part, the short-circuit: any event whose before
and after timeout timestamps are equal is a complete no-op — no apply
invocation, no state change — for every cache and store content, which
shows the check is a content check on the state, not a check of which
domain was the mirror source.  Second part, the scenario: A=1 with
destinations B=2 and C=3 pulling from A; the first RESTRICTED(t) event
produces exactly one invocation for each destination, and delivering the
identical event again (before = after = t) produces none and leaves the
state untouched. -/
theorem c3_same_state_second_call_noop :
    (∀ (w : World) (o : Nat → Option ApplyError) (now : Nat) (st : HandlerState)
       (x : Option Nat) (m : Member), on_member_update w o now st x x m = (st, [])) ∧
    (∀ (nA nB nC : String) (sA sB sC : GuildSettings) (u t now1 now2 : Nat)
       (o1 o2 : Nat → Option ApplyError),
      1 ∈ sB.muteSources → 1 ∈ sC.muteSources →
      ((on_member_update [⟨1, nA, false, true⟩, ⟨2, nB, false, true⟩, ⟨3, nC, false, true⟩]
          o1 now1 ⟨fun _ _ => none, [(1, sA), (2, sB), (3, sC)]⟩ none (some t)
          ⟨u, ⟨1, nA, false, true⟩⟩).2.map (fun c => c.forDest) = [2, 3]) ∧
      (on_member_update [⟨1, nA, false, true⟩, ⟨2, nB, false, true⟩, ⟨3, nC, false, true⟩]
          o2 now2
          (on_member_update [⟨1, nA, false, true⟩, ⟨2, nB, false, true⟩, ⟨3, nC, false, true⟩]
            o1 now1 ⟨fun _ _ => none, [(1, sA), (2, sB), (3, sC)]⟩ none (some t)
            ⟨u, ⟨1, nA, false, true⟩⟩).1
          (some t) (some t) ⟨u, ⟨1, nA, false, true⟩⟩ =
        ((on_member_update [⟨1, nA, false, true⟩, ⟨2, nB, false, true⟩, ⟨3, nC, false, true⟩]
            o1 now1 ⟨fun _ _ => none, [(1, sA), (2, sB), (3, sC)]⟩ none (some t)
            ⟨u, ⟨1, nA, false, true⟩⟩).1, []))) := by
  have hnoop : ∀ (w : World) (o : Nat → Option ApplyError) (now : Nat) (st : HandlerState)
      (x : Option Nat) (m : Member), on_member_update w o now st x x m = (st, []) := by
    intro w o now st x m
    simp [on_member_update]
  refine ⟨hnoop, ?_⟩
  intro nA nB nC sA sB sC u t now1 now2 o1 o2 hB hC
  refine ⟨?_, hnoop _ _ _ _ _ _⟩
  rw [on_member_update_of_ne _ _ _ _ _ _ _ (show (none : Option Nat) ≠ some t by simp)]
  dsimp only
  simp only [Option.isSome_some]
  rw [handle_mute_unmute_applies]
  dsimp only
  have hsnap : set_cached_name [(1, sA), (2, sB), (3, sC)] 1 nA =
      [(1, { sA with cachedGuildName := nA }), (2, sB), (3, sC)] := by
    simp [set_cached_name, store_update]
  rw [hsnap]
  simp [dest_qualifies, get_guild, update_cache, hB, hC, apply_call_for]

/-- C3 witness: concrete names, pull lists, user and timestamp. -/
theorem c3_same_state_witness :
    1 ∈ (GuildSettings.mk "B" [1] []).muteSources ∧
    ((on_member_update
        [⟨1, "A", false, true⟩, ⟨2, "B", false, true⟩, ⟨3, "C", false, true⟩]
        (fun _ => none) 20 ⟨fun _ _ => none,
          [(1, ⟨"A", [], []⟩), (2, ⟨"B", [1], []⟩), (3, ⟨"C", [1], []⟩)]⟩ none (some 60)
        ⟨4, ⟨1, "A", false, true⟩⟩).2.map (fun c => c.forDest) = [2, 3]) ∧
    (on_member_update [⟨1, "A", false, true⟩, ⟨2, "B", false, true⟩, ⟨3, "C", false, true⟩]
        (fun _ => none) 21
        (on_member_update [⟨1, "A", false, true⟩, ⟨2, "B", false, true⟩, ⟨3, "C", false, true⟩]
          (fun _ => none) 20 ⟨fun _ _ => none,
            [(1, ⟨"A", [], []⟩), (2, ⟨"B", [1], []⟩), (3, ⟨"C", [1], []⟩)]⟩ none (some 60)
          ⟨4, ⟨1, "A", false, true⟩⟩).1
        (some 60) (some 60) ⟨4, ⟨1, "A", false, true⟩⟩ =
      ((on_member_update [⟨1, "A", false, true⟩, ⟨2, "B", false, true⟩, ⟨3, "C", false, true⟩]
          (fun _ => none) 20 ⟨fun _ _ => none,
            [(1, ⟨"A", [], []⟩), (2, ⟨"B", [1], []⟩), (3, ⟨"C", [1], []⟩)]⟩ none (some 60)
          ⟨4, ⟨1, "A", false, true⟩⟩).1, [])) :=
  ⟨by decide,
    (c3_same_state_second_call_noop.2 "A" "B" "C" ⟨"A", [], []⟩ ⟨"B", [1], []⟩ ⟨"C", [1], []⟩
      4 60 20 21 (fun _ => none) (fun _ => none) (by decide) (by decide)).1,
    (c3_same_state_second_call_noop.2 "A" "B" "C" ⟨"A", [], []⟩ ⟨"B", [1], []⟩ ⟨"C", [1], []⟩
      4 60 20 21 (fun _ => none) (fun _ => none) (by decide) (by decide)).2⟩

/-- C4 counterexample.  A concrete RESTRICTED propagation in which
destination 5 is not skipped — its loop iteration issues the apply call —
yet after the handler completes the cache entry for (5, subject) is still
unset, where the claim requires it to hold the new state. -/
theorem c4_dest_cache_not_written_cex :
    let gA : Guild := ⟨4, "Delta", false, true⟩
    let st0 : HandlerState := ⟨fun _ _ => none,
      [(4, ⟨"Delta", [], []⟩), (5, ⟨"Epsilon", [4], []⟩)]⟩
    let r := on_member_update [gA, ⟨5, "Epsilon", false, true⟩] (fun _ => none) 200 st0
      none (some 500) ⟨9, gA⟩
    r.2.map (fun c => c.forDest) = [5] ∧ r.1.cache 5 9 = none := by
  decide

/-- C4 as amended: during `on_state_change` the RecentStateCache is written
only for (source domain, subject) — at handler entry — and every other
cache entry, in particular every destination entry, is left unchanged by
the propagation; destination entries are only ever written when the echoed
event later arrives with the destination as its source. -/
theorem c4_cache_written_for_source_only (w : World) (o : Nat → Option ApplyError)
    (now : Nat) (st : HandlerState) (src : Guild) (user : Member) (mute : Bool) :
    (handle_mute_unmute w o now st src user mute).1.cache src.id user.id = some mute ∧
    (∀ g v, ¬(g = src.id ∧ v = user.id) →
      (handle_mute_unmute w o now st src user mute).1.cache g v = st.cache g v) := by
  rw [handle_mute_unmute_eq]
  constructor
  · simp [update_cache]
  · intro g v h
    simp only [update_cache]
    rw [if_neg h]

/-- C4 witness: a cache entry away from the source key is unchanged. -/
theorem c4_cache_written_witness :
    ¬((3 : Nat) = 1 ∧ (7 : Nat) = 42) ∧
    (handle_mute_unmute [] (fun _ => none) 0 ⟨fun _ _ => none, []⟩ ⟨1, "A", false, true⟩
      ⟨42, ⟨1, "A", false, true⟩⟩ true).1.cache 3 7 =
      (HandlerState.mk (fun _ _ => none) []).cache 3 7 :=
  ⟨by decide,
    (c4_cache_written_for_source_only [] (fun _ => none) 0 ⟨fun _ _ => none, []⟩
      ⟨1, "A", false, true⟩ ⟨42, ⟨1, "A", false, true⟩⟩ true).2 3 7 (by decide)⟩

/-- C8 counterexample.  A concrete UNRESTRICTED propagation: destination 7
receives the successful unmute apply (the invocation list records it, the
outcome is success), yet its per-source counter for source 6 stays at its
prior value 3 — the claim requires an increment regardless of whether the
new state is RESTRICTED or UNRESTRICTED. -/
theorem c8_counter_unmute_cex :
    let gA : Guild := ⟨6, "Zeta", false, true⟩
    let st0 : HandlerState := ⟨fun _ _ => none,
      [(6, ⟨"Zeta", [], []⟩), (7, ⟨"Eta", [6], [(6, 3)]⟩)]⟩
    let r := on_member_update [gA, ⟨7, "Eta", false, true⟩] (fun _ => none) 300 st0
      (some 50) none ⟨11, gA⟩
    r.2.map (fun c => (c.forDest, c.timeout)) = [(7, none)] ∧
    mute_count_of r.1.config 7 6 = 3 ∧
    mute_count_of st0.config 7 6 = 3 := by
  decide

/-- C8 as amended: during a RESTRICTED (mute) propagation every stored
destination record gains exactly one increment of its per-source counter
for the source exactly when its iteration qualifies and its apply call
succeeds; during an UNRESTRICTED (unmute) propagation the store is left
unchanged apart from the cached-name refresh of the source — no counter is
ever touched. -/
theorem c8_counter_incremented_only_on_mute :
    (∀ (w : World) (o : Nat → Option ApplyError) (now : Nat) (st : HandlerState)
       (src : Guild) (user : Member) (d : Nat) (gs : GuildSettings),
      ((set_cached_name st.config src.id src.name).map Prod.fst).Nodup →
      (d, gs) ∈ set_cached_name st.config src.id src.name →
      mute_count_of (handle_mute_unmute w o now st src user true).1.config d src.id =
        mute_count_of st.config d src.id +
          (if dest_qualifies w (update_cache st.cache src.id user.id true) src.id user.id
              true d gs ∧ o d = none then 1 else 0)) ∧
    (∀ (w : World) (o : Nat → Option ApplyError) (now : Nat) (st : HandlerState)
       (src : Guild) (user : Member),
      (handle_mute_unmute w o now st src user false).1.config =
        set_cached_name st.config src.id src.name) := by
  constructor
  · intro w o now st src user d gs hnd hmem
    rw [handle_mute_unmute_eq]
    dsimp only
    rw [propagate_loop_count_mem w o src user true now _ _ _ [] d gs hnd hmem,
      mute_count_set_cached_name]
    simp
  · intro w o now st src user
    rw [handle_mute_unmute_eq]
    dsimp only
    rw [propagate_loop_config_unmute]

/-- C8 witness: the counter of destination 2 for source 1 goes from 0 to 1
on a successful mute apply. -/
theorem c8_counter_witness :
    (((set_cached_name [(1, ⟨"A", [], []⟩), (2, ⟨"B", [1], []⟩)] 1 "A").map Prod.fst).Nodup) ∧
    ((2, (⟨"B", [1], []⟩ : GuildSettings)) ∈
      set_cached_name [(1, ⟨"A", [], []⟩), (2, ⟨"B", [1], []⟩)] 1 "A") ∧
    mute_count_of (handle_mute_unmute [⟨1, "A", false, true⟩, ⟨2, "B", false, true⟩]
        (fun _ => none) 0 ⟨fun _ _ => none, [(1, ⟨"A", [], []⟩), (2, ⟨"B", [1], []⟩)]⟩
        ⟨1, "A", false, true⟩ ⟨5, ⟨1, "A", false, true⟩⟩ true).1.config 2 1 =
      mute_count_of [(1, ⟨"A", [], []⟩), (2, ⟨"B", [1], []⟩)] 2 1 +
        (if dest_qualifies [⟨1, "A", false, true⟩, ⟨2, "B", false, true⟩]
            (update_cache (fun _ _ => none) 1 5 true) 1 5 true 2 ⟨"B", [1], []⟩ ∧
            (fun _ => (none : Option ApplyError)) 2 = none then 1 else 0) :=
  ⟨by decide, by decide,
    c8_counter_incremented_only_on_mute.1 [⟨1, "A", false, true⟩, ⟨2, "B", false, true⟩]
      (fun _ => none) 0 ⟨fun _ _ => none, [(1, ⟨"A", [], []⟩), (2, ⟨"B", [1], []⟩)]⟩
      ⟨1, "A", false, true⟩ ⟨5, ⟨1, "A", false, true⟩⟩ 2 ⟨"B", [1], []⟩
      (by decide) (by decide)⟩

/-- C9 (confirmed).  The per-destination suppress block of the code is
translated structurally: the handler is a total function, so no apply
failure reaches the caller of the event handler.  The theorem states the
behavioural content: first, the sequence of attempted apply calls is
identical for every outcome assignment — a failure at one destination
never prevents or alters the apply calls to the remaining destinations;
second, the per-source counter of every other destination is unaffected by
the outcome at a given destination. -/
theorem c9_apply_failures_isolated :
    (∀ (w : World) (o o' : Nat → Option ApplyError) (now : Nat) (st : HandlerState)
       (src : Guild) (user : Member) (mute : Bool),
      (handle_mute_unmute w o now st src user mute).2 =
        (handle_mute_unmute w o' now st src user mute).2) ∧
    (∀ (w : World) (o o' : Nat → Option ApplyError) (now : Nat) (st : HandlerState)
       (src : Guild) (user : Member) (mute : Bool) (d : Nat),
      ((set_cached_name st.config src.id src.name).map Prod.fst).Nodup →
      (∀ k, k ≠ d → o k = o' k) →
      ∀ (d' : Nat) (gs : GuildSettings), d' ≠ d →
        (d', gs) ∈ set_cached_name st.config src.id src.name →
        mute_count_of (handle_mute_unmute w o now st src user mute).1.config d' src.id =
          mute_count_of (handle_mute_unmute w o' now st src user mute).1.config d' src.id) := by
  constructor
  · intro w o o' now st src user mute
    rw [handle_mute_unmute_applies, handle_mute_unmute_applies]
  · intro w o o' now st src user mute d hnd ho d' gs hne hmem
    rw [handle_mute_unmute_eq, handle_mute_unmute_eq]
    dsimp only
    rw [propagate_loop_count_mem w o src user mute now _ _ _ [] d' gs hnd hmem,
      propagate_loop_count_mem w o' src user mute now _ _ _ [] d' gs hnd hmem,
      ho d' hne]

/-- C9 witness: a failure at destination 9 leaves the counter of
destination 2 equal to its value under the all-success outcome. -/
theorem c9_apply_failures_witness :
    (((set_cached_name [(1, ⟨"A", [], []⟩), (2, ⟨"B", [1], []⟩)] 1 "A").map Prod.fst).Nodup) ∧
    ((2 : Nat) ≠ 9) ∧
    ((2, (⟨"B", [1], []⟩ : GuildSettings)) ∈
      set_cached_name [(1, ⟨"A", [], []⟩), (2, ⟨"B", [1], []⟩)] 1 "A") ∧
    mute_count_of (handle_mute_unmute [⟨1, "A", false, true⟩, ⟨2, "B", false, true⟩]
        (fun k => if k = 9 then some ApplyError.forbidden else none) 0
        ⟨fun _ _ => none, [(1, ⟨"A", [], []⟩), (2, ⟨"B", [1], []⟩)]⟩
        ⟨1, "A", false, true⟩ ⟨5, ⟨1, "A", false, true⟩⟩ true).1.config 2 1 =
      mute_count_of (handle_mute_unmute [⟨1, "A", false, true⟩, ⟨2, "B", false, true⟩]
        (fun _ => none) 0
        ⟨fun _ _ => none, [(1, ⟨"A", [], []⟩), (2, ⟨"B", [1], []⟩)]⟩
        ⟨1, "A", false, true⟩ ⟨5, ⟨1, "A", false, true⟩⟩ true).1.config 2 1 :=
  ⟨by decide, by decide, by decide,
    c9_apply_failures_isolated.2 [⟨1, "A", false, true⟩, ⟨2, "B", false, true⟩]
      (fun k => if k = 9 then some ApplyError.forbidden else none) (fun _ => none) 0
      ⟨fun _ _ => none, [(1, ⟨"A", [], []⟩), (2, ⟨"B", [1], []⟩)]⟩
      ⟨1, "A", false, true⟩ ⟨5, ⟨1, "A", false, true⟩⟩ true 9 (by decide)
      (fun k hk => by simp [hk]) 2 ⟨"B", [1], []⟩ (by decide) (by decide)⟩

end CodzCogs
